import Mathlib

/-!
Verification development for the execution gateway of
`sirrah-rpc/httpserver/handler.go` (gramine-andromeda-revm).

The Go source is shallowly embedded: pure control flow becomes Lean
functions; the results of external interactions (pipe acquisition,
marshalling, underlying reads and writes, the `select` arm taken, channel
contents) become explicit parameters or scripts, so that each function is a
faithful transcription of the corresponding Go function body.  Bytes are
natural numbers; fallible operations return `Except`/`Option`; a Go `panic`
and a permanently-blocked channel operation are explicit outcome
constructors.
-/

namespace GramineRevm

/-- A byte. The program's bytes are 0–255; no claim depends on the bound. -/
abbrev Byte := Nat

/-- The frame delimiter byte: the newline appended at handler.go line 76 and
tested at lines 95 and 112. -/
def delim : Byte := 10

/-- Framing of the input transaction (handler.go lines 76–77): exactly one
delimiter byte is appended to the marshalled transaction and the result is
written with a single `Write` call. -/
def writeFrame (payload : List Byte) : List Byte := payload ++ [delim]

/-- One underlying `Read` on an engine output pipe, as observed by the loops
at handler.go lines 83–98 and 101–115: either the read returns `nRead` bytes
(the chunk `buf[:nRead]`) with a nil error, or it returns an error.  `buf`
is 1024 bytes, so in the program a chunk never exceeds 1024 bytes; the model
does not depend on the bound. -/
inductive ReadStep where
  | chunk (data : List Byte)
  | fail (e : String)
  deriving DecidableEq

/-- Outcome of the frame-reassembly loop (handler.go lines 82–98):
`ok` — the loop broke out with the accumulated bytes (the delimiter is kept:
nothing in the loop strips it); `panicked` — a read returned an error and
line 89 panicked; `indexPanic` — a read returned `(0, nil)` and the index
expression `buf[nRead-1]` at line 95 evaluated `buf[-1]`, a Go runtime
index-out-of-range panic; `blocked` — the underlying stream never delivers
another result, so the blocking `Read` at line 85 never returns. -/
inductive ReadOutcome where
  | ok (frame : List Byte)
  | panicked (e : String)
  | indexPanic
  | blocked
  deriving DecidableEq

/-- The frame-reassembly loop of handler.go lines 82–98 (the loop at lines
100–115 is identical), over a script of underlying read results and an
accumulator `outData`.  Each iteration: an error read panics (line 89); a
zero-byte read sleeps (line 92) and then — there is no `continue` — falls
through to `buf[nRead-1]` at line 95 with `nRead = 0`, an index panic; a
nonempty chunk is appended to the accumulator (line 94) and the loop breaks
when the last byte of the chunk is the delimiter (line 95). -/
def readFrameLoop : List ReadStep → List Byte → ReadOutcome
  | [], _ => .blocked
  | ReadStep.fail e :: _, _ => .panicked e
  | ReadStep.chunk [] :: _, _ => .indexPanic
  | ReadStep.chunk (b :: bs) :: rest, acc =>
    if (b :: bs).getLast? = some delim then ReadOutcome.ok (acc ++ (b :: bs))
    else readFrameLoop rest (acc ++ (b :: bs))

/-- Reading one frame: the loop started with an empty accumulator
(handler.go line 82: `outData := make([]byte, 0)`). -/
def readFrame (script : List ReadStep) : ReadOutcome := readFrameLoop script []

/-- State of a Go `exec.Cmd`, modelled from the documented behaviour of the
Go standard library `os/exec`: `StdinPipe` fails with
"exec: Stdin already set" if `Stdin` is non-nil and with
"exec: StdinPipe after process started" if the process was already started,
and correspondingly for `StdoutPipe` and `StderrPipe`. -/
structure CmdState where
  stdinSet : Bool
  stdoutSet : Bool
  stderrSet : Bool
  started : Bool
  deriving DecidableEq

/-- `Cmd.StdinPipe` per the os/exec contract. -/
def stdinPipe (c : CmdState) : Except String CmdState :=
  if c.stdinSet then Except.error "exec: Stdin already set"
  else if c.started then Except.error "exec: StdinPipe after process started"
  else Except.ok { c with stdinSet := true }

/-- `Cmd.StdoutPipe` per the os/exec contract. -/
def stdoutPipe (c : CmdState) : Except String CmdState :=
  if c.stdoutSet then Except.error "exec: Stdout already set"
  else if c.started then Except.error "exec: StdoutPipe after process started"
  else Except.ok { c with stdoutSet := true }

/-- `Cmd.StderrPipe` per the os/exec contract. -/
def stderrPipe (c : CmdState) : Except String CmdState :=
  if c.stderrSet then Except.error "exec: Stderr already set"
  else if c.started then Except.error "exec: StderrPipe after process started"
  else Except.ok { c with stderrSet := true }

/-- The `exec.Cmd` as configured by `NewRevmService` (handler.go lines
26–35) after a successful `Start`: lines 28–29 assign `bytes.Buffer`s to
`cmd.Stdout` and `cmd.Stderr`, and line 30 starts the process, all before
any pipe is requested. -/
def NewRevmServiceCmd : CmdState :=
  { stdinSet := false, stdoutSet := true, stderrSet := true, started := true }

/-- A command state on which the three pipe requests of `ExecuteTx` would
succeed: no stdio assigned and the process not yet started.  (The body of
`ExecuteTx` implicitly assumes such a state; the state actually produced by
`NewRevmService` is `NewRevmServiceCmd`.) -/
def pipesFreshCmd : CmdState :=
  { stdinSet := false, stdoutSet := false, stderrSet := false, started := false }

/-- Result of one `ExecuteTx` call (handler.go lines 55–118): an ordinary
error return `(nil, nil, err)`; a Go `panic` raised at line 89 or 105 on a
read error; the runtime index panic of `buf[nRead-1]` on a zero-byte read;
a call blocked forever inside a read; or a normal return of the stdout and
stderr frames. -/
inductive ExecTxResult where
  | err (e : String)
  | panicked (e : String)
  | indexPanic
  | blocked
  | ok (stdout stderr : List Byte)
  deriving DecidableEq

/-- `ExecuteTx` (handler.go lines 55–118).  Parameters stand for the results
of the external interactions, in the order the body performs them:
`cmd` the service's `exec.Cmd` (pipes are requested from it at lines 56,
61 and 66, each error returned as an ordinary error); `marshalRes` the
result of `tx.MarshalBinary()` (line 71); `writeRes` the error, if any, of
the single `inPipe.Write` of the framed bytes (line 77, ordinary error
return on failure); `outScript` and `errScript` the underlying reads
delivered by the stdout and stderr pipes for the two frame-reassembly loops
(lines 82–98 and 100–115, where a read error panics). -/
def ExecuteTx (cmd : CmdState) (marshalRes : Except String (List Byte))
    (writeRes : Option String) (outScript errScript : List ReadStep) :
    ExecTxResult :=
  match stdinPipe cmd with
  | .error e => .err e
  | .ok c1 =>
  match stdoutPipe c1 with
  | .error e => .err e
  | .ok c2 =>
  match stderrPipe c2 with
  | .error e => .err e
  | .ok _ =>
  match marshalRes with
  | .error e => .err e
  | .ok _txBytes =>
  match writeRes with
  | some e => .err e
  | none =>
  match readFrame outScript with
  | .panicked e => .panicked e
  | .indexPanic => .indexPanic
  | .blocked => .blocked
  | .ok outData =>
  match readFrame errScript with
  | .panicked e => .panicked e
  | .indexPanic => .indexPanic
  | .blocked => .blocked
  | .ok errData => .ok outData errData

/-- Which arm of the `select` at handler.go lines 43–52 fires: the buffered
send on `cmdLock` (the acquire, line 44) or `ctx.Done()` (line 49).  The
lock arm can fire only while the slot is free; the done arm only once the
caller's deadline has elapsed; when both are enabled Go chooses
pseudo-randomly, so the choice is a parameter. -/
inductive SelectChoice where
  | lockBranch
  | ctxDoneBranch
  deriving DecidableEq

/-- Behaviour of the callback passed to `ExecuteLocked`: it either returns
normally or panics out of `cb()` at line 46. -/
inductive CbBehavior where
  | returns
  | panics (e : String)
  deriving DecidableEq

/-- Return value of `ExecuteLocked`: nil, `ctx.Err()`, or a propagating
panic. -/
inductive LockedOutcome where
  | ok
  | ctxErr
  | panicked (e : String)
  deriving DecidableEq

/-- Observable effects of one `ExecuteLocked` call: its outcome, whether the
callback ran, and how many times the slot was acquired (sends on `cmdLock`,
line 44) and released (receives, line 47). -/
structure LockedRun where
  outcome : LockedOutcome
  cbRan : Bool
  acquires : Nat
  releases : Nat
  deriving DecidableEq

/-- `ExecuteLocked` (handler.go lines 37–53).  The send on the 1-buffered
channel `cmdLock` at line 44 is the acquire; the receive at line 47 is the
release.  There is no `defer`: the release at line 47 executes only when
`cb()` at line 46 returns normally, so a panic inside the callback unwinds
past line 47 without releasing the slot.  The `ctx.Done()` arm (lines
49–51) records a timeout metric and returns `ctx.Err()` without running the
callback. -/
def ExecuteLocked : SelectChoice → CbBehavior → LockedRun
  | .ctxDoneBranch, _ => ⟨.ctxErr, false, 0, 0⟩
  | .lockBranch, .returns => ⟨.ok, true, 1, 1⟩
  | .lockBranch, .panics e => ⟨.panicked e, true, 1, 0⟩

/-- A JSON-RPC request id (`Id interface{}` in the Go struct), echoed
verbatim into responses. -/
inductive RpcId where
  | null
  | num (n : Int)
  | str (s : String)
  deriving DecidableEq

/-- `JsonRpcRequest` (handler.go lines 120–125).  `Params` is consumed only
by the `json.Unmarshal` at line 200, whose result the handler model takes
as a parameter, so it is not carried here. -/
structure JsonRpcRequest where
  jsonrpc : String
  method : String
  id : RpcId
  deriving DecidableEq

/-- `JsonRpcError` (handler.go lines 127–130). -/
structure JsonRpcError where
  code : Int
  message : String
  deriving DecidableEq

/-- `JsonRpcErrorResponse` (handler.go lines 132–136). -/
structure JsonRpcErrorResponse where
  jsonrpc : String
  error : JsonRpcError
  id : RpcId
  deriving DecidableEq

/-- `JsonRpcSuccessResponse` (handler.go lines 146–150); the `Result` field
holds the raw stdout bytes handed to it at line 229. -/
structure JsonRpcSuccessResponse where
  jsonrpc : String
  result : List Byte
  id : RpcId
  deriving DecidableEq

/-- `NewJsonRpcErrorResponse` (handler.go lines 138–144). -/
def NewJsonRpcErrorResponse (r : JsonRpcRequest) (code : Int) (msg : String) :
    JsonRpcErrorResponse :=
  { id := r.id, error := { code := code, message := msg }, jsonrpc := r.jsonrpc }

/-- `NewJsonRpcSuccessResponse` (handler.go lines 152–158). -/
def NewJsonRpcSuccessResponse (r : JsonRpcRequest) (data : List Byte) :
    JsonRpcSuccessResponse :=
  { id := r.id, result := data, jsonrpc := r.jsonrpc }

/-- A JSON-RPC response envelope written by `handleAPI`. -/
inductive Envelope where
  | success (s : JsonRpcSuccessResponse)
  | error (e : JsonRpcErrorResponse)
  deriving DecidableEq

/-- One write to the `http.ResponseWriter`: the plain-text 400 of lines
187–188, or a JSON-encoded envelope. -/
inductive HttpWrite where
  | plainBadRequest (msg : String)
  | envelope (e : Envelope)
  deriving DecidableEq

/-- How one `handleAPI` invocation ends: the handler function returned
(response complete); the handler is blocked forever on a channel receive
(whatever was already written stays buffered and the handler never
terminates); or a panic propagated out of the handler. -/
inductive HandlerOutcome where
  | returned (writes : List HttpWrite)
  | blocked (writes : List HttpWrite)
  | panickedOut (e : String) (writes : List HttpWrite)
  deriving DecidableEq

/-- What the callback at handler.go lines 211–221 leaves on the two buffered
channels, as a function of `ExecuteTx`'s result: on an ordinary error it
sends the error on `errCh` and returns (lines 213–216); on success it sends
stdout then stderr on `outCh` and nil on `errCh` (lines 218–220); a panic
inside `ExecuteTx` propagates out of the callback. -/
inductive CbResult where
  | finished (outCh : List (List Byte)) (errCh : List (Option String))
  | panicked (e : String)
  | blockedCb
  deriving DecidableEq

/-- Channel effects of the callback, from `ExecuteTx`'s result. -/
def runCallback : ExecTxResult → CbResult
  | .err e => .finished [] [some e]
  | .ok o d => .finished [o, d] [none]
  | .panicked e => .panicked e
  | .indexPanic => .panicked "runtime error: index out of range"
  | .blocked => .blockedCb

/-- `handleAPI` (handler.go lines 170–234).  Parameters: `parseRes` the
result of `parseJsonRpcRequest` (line 185); `txDecode` the result of the
`json.Unmarshal` into `types.Transaction` (line 200); `choice` the arm the
`select` inside `ExecuteLocked` takes; `txRes` the result of the
`ExecuteTx` call inside the callback.  The buffered channels `outCh`
(capacity 2) and `errCh` (capacity 1) have the callback as their only
sender, and the return value of `ExecuteLocked` is discarded at line 211;
therefore after the ctx-done arm the receive `<-errCh` at line 223 blocks
forever with nothing written, and on the success path, after the success
envelope is encoded at line 229, the second receive `<-errCh` at line 231
blocks forever because the single buffered value was already consumed at
line 223. -/
def handleAPI (parseRes : Except String JsonRpcRequest)
    (txDecode : Except String Unit) (choice : SelectChoice)
    (txRes : ExecTxResult) : HandlerOutcome :=
  match parseRes with
  | .error e =>
    .returned [.plainBadRequest ("could not parse request: " ++ e)]
  | .ok jr =>
    if jr.method ≠ "suave_offchainCall" then
      .returned [.envelope (.error (NewJsonRpcErrorResponse jr (-32600)
        "invalid method, expected suave_offchainCall"))]
    else
      match txDecode with
      | .error e =>
        .returned [.envelope (.error (NewJsonRpcErrorResponse jr (-32600)
          ("could not unmarshal transaction: " ++ e)))]
      | .ok _ =>
        match choice with
        | .ctxDoneBranch => .blocked []
        | .lockBranch =>
          match runCallback txRes with
          | .panicked e => .panickedOut e []
          | .blockedCb => .blocked []
          | .finished outCh errCh =>
            match errCh with
            | [] => .blocked []
            | some e :: _ =>
              .returned [.envelope (.error (NewJsonRpcErrorResponse jr (-32600)
                ("could not execute: " ++ e)))]
            | none :: errRest =>
              match outCh with
              | [] => .blocked []
              | stdout :: _ =>
                match errRest with
                | [] =>
                  .blocked [.envelope (.success (NewJsonRpcSuccessResponse jr stdout))]
                | _ :: _ =>
                  .returned [.envelope (.success (NewJsonRpcSuccessResponse jr stdout))]

/-- Projection used for claim C10: the writes a handler invocation made to
the `http.ResponseWriter`, whatever way the invocation ended. -/
def writesOf : HandlerOutcome → List HttpWrite
  | .returned ws => ws
  | .blocked ws => ws
  | .panickedOut _ ws => ws

/-- The JSON-RPC envelopes among a handler invocation's writes. -/
def envelopesOf (o : HandlerOutcome) : List Envelope :=
  (writesOf o).filterMap (fun w =>
    match w with
    | .envelope e => some e
    | .plainBadRequest _ => none)

/-- The `jsonrpc` field of an envelope. -/
def envVersion : Envelope → String
  | .success s => s.jsonrpc
  | .error e => e.jsonrpc

/-- The `id` field of an envelope. -/
def envId : Envelope → RpcId
  | .success s => s.id
  | .error e => e.id

/-- Replace the `jsonrpc` field of an envelope. -/
def setEnvVersion (v : String) : Envelope → Envelope
  | .success s => .success { s with jsonrpc := v }
  | .error e => .error { e with jsonrpc := v }

/-- Replace the `jsonrpc` field of an envelope write; plain-text writes are
untouched. -/
def mapWriteVersion (v : String) : HttpWrite → HttpWrite
  | .envelope e => .envelope (setEnvVersion v e)
  | .plainBadRequest m => .plainBadRequest m

/-- Replace the `jsonrpc` field of every envelope a handler invocation
wrote. -/
def mapVersion (v : String) : HandlerOutcome → HandlerOutcome
  | .returned ws => .returned (ws.map (mapWriteVersion v))
  | .blocked ws => .blocked (ws.map (mapWriteVersion v))
  | .panickedOut e ws => .panickedOut e (ws.map (mapWriteVersion v))

/-!
JSON serialization of the response structs, for claim C7.  `encoding/json`
computes each object key from the field's struct tag via
`reflect.StructTag.Lookup`; the algorithm below is transcribed from that
function, and `jsonKey` from the key-selection logic of `encoding/json`
(first comma-separated component of the `json` tag if present and valid,
otherwise the Go field name).
-/

/-- A JSON value, as far as the responses of this service need. -/
inductive JsonValue where
  | str (s : String)
  | int (n : Int)
  | bytes (bs : List Byte)
  | null
  | obj (fields : List (String × JsonValue))

/-- Character allowed in a struct-tag key by `reflect.StructTag.Lookup`:
the key scan stops at a space, a colon, a quote or a control character. -/
def tagNameChar (c : Char) : Bool :=
  32 < c.toNat && c != ':' && c != '"' && c.toNat != 127

/-- Scan a quoted tag value: the input starts just after the opening quote;
returns the raw content (escapes kept) and the remainder after the closing
quote, or `none` if the quote is never closed — as in the loop of
`reflect.StructTag.Lookup` that advances two positions at a backslash. -/
def scanToQuote : List Char → Option (List Char × List Char)
  | [] => none
  | '"' :: rest => some ([], rest)
  | '\\' :: c :: rest =>
    match scanToQuote rest with
    | none => none
    | some (v, r) => some ('\\' :: c :: v, r)
  | c :: rest =>
    match scanToQuote rest with
    | none => none
    | some (v, r) => some (c :: v, r)

/-- Unquoting of a tag value (the tags in handler.go contain no escapes;
backslash escapes are resolved to the escaped character). -/
def simpleUnquote : List Char → List Char
  | [] => []
  | '\\' :: c :: rest => c :: simpleUnquote rest
  | c :: rest => c :: simpleUnquote rest

/-- The pair-scanning loop of `reflect.StructTag.Lookup`: skip spaces, scan
a key up to a colon, require the value to start with a quote — note that a
malformed pair (for instance a value not starting with a quote) aborts the
whole lookup — then scan the quoted value and compare keys.  Fuel bounds
the recursion; one unit per scanned pair suffices. -/
def tagLookupAux : Nat → List Char → List Char → Option (List Char)
  | 0, _, _ => none
  | fuel + 1, tag, key =>
    let t := tag.dropWhile (· == ' ')
    match t with
    | [] => none
    | _ =>
      let name := t.takeWhile tagNameChar
      let rest := t.dropWhile tagNameChar
      match name, rest with
      | [], _ => none
      | _, ':' :: '"' :: rest2 =>
        match scanToQuote rest2 with
        | none => none
        | some (qcontent, rest3) =>
          if name == key then some (simpleUnquote qcontent)
          else tagLookupAux fuel rest3 key
      | _, _ => none

/-- `reflect.StructTag.Lookup` on a whole tag string. -/
def structTagLookup (tag key : String) : Option String :=
  match tagLookupAux (tag.length + 1) tag.data key.data with
  | none => none
  | some cs => some (String.mk cs)

/-- `encoding/json`'s `isValidTag`: nonempty, every rune a letter, a digit
or one of a fixed punctuation set. -/
def isValidTagChar (c : Char) : Bool :=
  c.isAlphanum || "!#$%&()*+-./:<=>?@[]^_\x7b|\x7d~ ".contains c

/-- `encoding/json`'s `isValidTag`. -/
def isValidTag (s : String) : Bool :=
  !s.isEmpty && s.data.all isValidTagChar

/-- The name component of a `json` tag value: everything before the first
comma (`parseTag` in `encoding/json`). -/
def parseTagName (tag : String) : String :=
  String.mk (tag.data.takeWhile (· != ','))

/-- The JSON object key `encoding/json` uses for a struct field: the name
component of the `json` tag when the tag parses and the name is valid,
otherwise the Go field name. -/
def jsonKey (fieldName tag : String) : String :=
  match structTagLookup tag "json" with
  | none => fieldName
  | some t =>
    let name := parseTagName t
    if isValidTag name then name else fieldName

/-- Encoding of the request id. -/
def encodeRpcId : RpcId → JsonValue
  | .null => .null
  | .num n => .int n
  | .str s => .str s

/-- The JSON object `encoding/json` produces for `JsonRpcError`
(handler.go lines 127–130), with each key computed from the field's literal
struct tag.  The tag on `Message` is the malformed `json:message""` from
line 129. -/
def encodeJsonRpcError (e : JsonRpcError) : JsonValue :=
  .obj [(jsonKey "Code" "json:\"code\"", .int e.code),
        (jsonKey "Message" "json:message\"\"", .str e.message)]

/-- The JSON object for `JsonRpcErrorResponse` (handler.go lines 132–136),
fields in declaration order with their literal struct tags. -/
def encodeJsonRpcErrorResponse (r : JsonRpcErrorResponse) : JsonValue :=
  .obj [(jsonKey "Jsonrpc" "json:\"jsonrpc\"", .str r.jsonrpc),
        (jsonKey "Error" "json:\"error\"", encodeJsonRpcError r.error),
        (jsonKey "Id" "json:\"id\"", encodeRpcId r.id)]

/-!
Transition system for claim C9: `n` concurrent HTTP-request tasks, each
running `handleAPI`'s execution phase — `ExecuteLocked` around one
`ExecuteTx` — against the single shared `cmdLock` channel and the engine
pipes.  A task acquires the slot (the buffered send, handler.go line 44),
then performs its write (line 77), its stdout read loop (lines 82–98) and
its stderr read loop (lines 100–115) while holding the slot, and releases
it (line 47) when the callback returns; a read-loop panic unwinds without
releasing.
-/

/-- Program counter of one request task. -/
inductive Pc where
  | waiting
  | writing
  | readingOut
  | readingErr
  | done
  | panicked
  deriving DecidableEq

/-- Whether a task is inside the engine-I/O region (holding the ticket and
entitled to touch the pipes). -/
def Pc.inCrit : Pc → Bool
  | .writing => true
  | .readingOut => true
  | .readingErr => true
  | _ => false

/-- Global state: the occupancy of the 1-buffered `cmdLock` channel and
every task's program counter. -/
structure GateSys (n : Nat) where
  lock : Bool
  pcs : Fin n → Pc

/-- One scheduler step.  `acquire` is the buffered send, enabled only while
the channel is empty; `writeFail` is an input-write error (the callback
returns the error through `errCh`, so the release still runs);
`readOutPanic` and `readErrPanic` are read-loop panics, which unwind
without executing the release at line 47; `readErrOk` is the normal
callback return followed by the release. -/
inductive GateStep {n : Nat} : GateSys n → GateSys n → Prop where
  | acquire (s : GateSys n) (i : Fin n) (hw : s.pcs i = .waiting)
      (hl : s.lock = false) :
      GateStep s ⟨true, Function.update s.pcs i .writing⟩
  | writeOk (s : GateSys n) (i : Fin n) (h : s.pcs i = .writing) :
      GateStep s ⟨s.lock, Function.update s.pcs i .readingOut⟩
  | writeFail (s : GateSys n) (i : Fin n) (h : s.pcs i = .writing) :
      GateStep s ⟨false, Function.update s.pcs i .done⟩
  | readOutOk (s : GateSys n) (i : Fin n) (h : s.pcs i = .readingOut) :
      GateStep s ⟨s.lock, Function.update s.pcs i .readingErr⟩
  | readOutPanic (s : GateSys n) (i : Fin n) (h : s.pcs i = .readingOut) :
      GateStep s ⟨s.lock, Function.update s.pcs i .panicked⟩
  | readErrOk (s : GateSys n) (i : Fin n) (h : s.pcs i = .readingErr) :
      GateStep s ⟨false, Function.update s.pcs i .done⟩
  | readErrPanic (s : GateSys n) (i : Fin n) (h : s.pcs i = .readingErr) :
      GateStep s ⟨s.lock, Function.update s.pcs i .panicked⟩

/-- Initial state: the channel is empty and every task is waiting. -/
def gateInit (n : Nat) : GateSys n := ⟨false, fun _ => .waiting⟩

/-- States reachable from the initial state. -/
def GateReachable {n : Nat} (s : GateSys n) : Prop :=
  Relation.ReflTransGen GateStep (gateInit n) s

/-- The mutual-exclusion invariant: at most one task is in the I/O region,
and the region is empty whenever the slot is free. -/
def MutexInv {n : Nat} (s : GateSys n) : Prop :=
  (∀ i j : Fin n, (s.pcs i).inCrit = true → (s.pcs j).inCrit = true → i = j) ∧
  (s.lock = false → ∀ i : Fin n, (s.pcs i).inCrit = false)

/-- The initial state satisfies the invariant. -/
theorem mutexInv_init (n : Nat) : MutexInv (gateInit n) := by
  constructor
  · intro i j hi _
    simp [gateInit, Pc.inCrit] at hi
  · intro _ i
    simp [gateInit, Pc.inCrit]

/-- Acquiring the slot from a free-lock state preserves the invariant. -/
theorem mutexInv_acquire {n : Nat} {s : GateSys n} (hs : MutexInv s)
    (i : Fin n) (hl : s.lock = false) (p : Pc) :
    MutexInv ⟨true, Function.update s.pcs i p⟩ := by
  obtain ⟨_, hfree⟩ := hs
  refine ⟨?_, by intro hc; simp at hc⟩
  intro j k hj hk
  dsimp only at hj hk
  by_cases hji : j = i <;> by_cases hki : k = i
  · rw [hji, hki]
  · rw [Function.update_noteq hki, hfree hl k] at hk
    exact absurd hk (by simp)
  · rw [Function.update_noteq hji, hfree hl j] at hj
    exact absurd hj (by simp)
  · rw [Function.update_noteq hji, hfree hl j] at hj
    exact absurd hj (by simp)

/-- A step taken by the task currently in the I/O region, leaving the lock
bit unchanged, preserves the invariant. -/
theorem mutexInv_move {n : Nat} {s : GateSys n} (hs : MutexInv s)
    (i : Fin n) (hcrit : (s.pcs i).inCrit = true) (p : Pc) :
    MutexInv ⟨s.lock, Function.update s.pcs i p⟩ := by
  obtain ⟨huniq, hfree⟩ := hs
  constructor
  · intro j k hj hk
    dsimp only at hj hk
    by_cases hji : j = i <;> by_cases hki : k = i
    · rw [hji, hki]
    · rw [Function.update_noteq hki] at hk
      exact absurd (huniq k i hk hcrit) hki
    · rw [Function.update_noteq hji] at hj
      exact absurd (huniq j i hj hcrit) hji
    · rw [Function.update_noteq hji] at hj
      exact absurd (huniq j i hj hcrit) hji
  · intro hl k
    rw [hfree hl i] at hcrit
    simp at hcrit

/-- The task in the I/O region leaving it to a non-I/O counter while
freeing the lock preserves the invariant. -/
theorem mutexInv_release {n : Nat} {s : GateSys n} (hs : MutexInv s)
    (i : Fin n) (hcrit : (s.pcs i).inCrit = true) (p : Pc)
    (hp : p.inCrit = false) :
    MutexInv ⟨false, Function.update s.pcs i p⟩ := by
  obtain ⟨huniq, _⟩ := hs
  have hnone : ∀ k : Fin n, (Function.update s.pcs i p k).inCrit = false := by
    intro k
    by_cases hki : k = i
    · rw [hki, Function.update_same]
      exact hp
    · rw [Function.update_noteq hki]
      by_contra hne
      have hk : (s.pcs k).inCrit = true := by
        cases hcc : (s.pcs k).inCrit with
        | false => exact absurd hcc hne
        | true => rfl
      exact hki (huniq k i hk hcrit)
  constructor
  · intro j k hj _
    dsimp only at hj
    rw [hnone j] at hj
    exact absurd hj (by simp)
  · intro _ k
    exact hnone k

/-- Every step preserves the invariant. -/
theorem mutexInv_step {n : Nat} {s t : GateSys n} (h : GateStep s t)
    (hs : MutexInv s) : MutexInv t := by
  cases h with
  | acquire i hw hl => exact mutexInv_acquire hs i hl Pc.writing
  | writeOk i hpc => exact mutexInv_move hs i (by rw [hpc]; rfl) Pc.readingOut
  | writeFail i hpc => exact mutexInv_release hs i (by rw [hpc]; rfl) Pc.done rfl
  | readOutOk i hpc => exact mutexInv_move hs i (by rw [hpc]; rfl) Pc.readingErr
  | readOutPanic i hpc => exact mutexInv_move hs i (by rw [hpc]; rfl) Pc.panicked
  | readErrOk i hpc => exact mutexInv_release hs i (by rw [hpc]; rfl) Pc.done rfl
  | readErrPanic i hpc => exact mutexInv_move hs i (by rw [hpc]; rfl) Pc.panicked

/-- Every reachable state satisfies the invariant. -/
theorem mutexInv_reachable {n : Nat} {s : GateSys n} (h : GateReachable s) :
    MutexInv s := by
  induction h with
  | refl => exact mutexInv_init n
  | tail _ hstep ih => exact mutexInv_step hstep ih

/-- The reassembly loop started with accumulator `acc`, fed a frame
delivered as any sequence of nonempty chunks, accumulates exactly the
frame's bytes — the delimiter included, since nothing in the loop strips
it. -/
theorem readFrameLoop_assembles (chunks : List (List Byte)) :
    ∀ (payload acc : List Byte),
      (∀ c ∈ chunks, c ≠ []) →
      chunks.flatten = payload ++ [delim] →
      delim ∉ payload →
      readFrameLoop (chunks.map ReadStep.chunk) acc
        = ReadOutcome.ok (acc ++ (payload ++ [delim])) := by
  induction chunks with
  | nil =>
    intro payload acc _ hjoin _
    exfalso
    have hlen := congrArg List.length hjoin
    simp at hlen
  | cons c rest ih =>
    intro payload acc hne hjoin hnd
    have hc : c ≠ [] := hne c (by simp)
    cases c with
    | nil => exact absurd rfl hc
    | cons b bs =>
      cases rest with
      | nil =>
        have hcp : b :: bs = payload ++ [delim] := by simpa using hjoin
        have hlast : (b :: bs).getLast? = some delim := by
          rw [hcp]
          exact List.getLast?_concat _
        simp only [List.map_cons, List.map_nil]
        rw [readFrameLoop, if_pos hlast, hcp]
      | cons c2 rest2 =>
        have h1 : (b :: bs) ++ (c2 :: rest2).flatten = payload ++ [delim] := hjoin
        have hjr : (c2 :: rest2).flatten ≠ [] := by
          have hc2 : c2 ≠ [] := hne c2 (by simp)
          simp only [List.flatten_cons]
          intro hx
          rcases List.append_eq_nil.mp hx with ⟨h2, _⟩
          exact hc2 h2
        have hlen : (b :: bs).length ≤ payload.length := by
          have hl := congrArg List.length h1
          rw [List.length_append, List.length_append] at hl
          have hpos : 0 < (c2 :: rest2).flatten.length := List.length_pos.mpr hjr
          rw [List.length_singleton] at hl
          omega
        have hlen2 : (payload.take (b :: bs).length).length = (b :: bs).length := by
          rw [List.length_take, Nat.min_eq_left hlen]
        have h2 : payload ++ [delim]
            = payload.take (b :: bs).length
              ++ (payload.drop (b :: bs).length ++ [delim]) := by
          rw [← List.append_assoc, List.take_append_drop]
        rw [h2] at h1
        obtain ⟨htake, hdrop⟩ := List.append_inj h1 hlen2.symm
        have hlastne : ¬ ((b :: bs).getLast? = some delim) := by
          intro hl
          have hmem : delim ∈ b :: bs := by
            have hgl : (b :: bs).getLast (List.cons_ne_nil b bs) = delim := by
              rw [List.getLast?_eq_getLast (b :: bs) (List.cons_ne_nil b bs)] at hl
              exact Option.some_injective _ hl
            rw [← hgl]
            exact List.getLast_mem _
          rw [htake] at hmem
          exact hnd (List.take_subset _ _ hmem)
        simp only [List.map_cons]
        rw [readFrameLoop, if_neg hlastne]
        have ihx := ih (payload.drop (b :: bs).length) (acc ++ (b :: bs))
          (fun cx hcx => hne cx (List.mem_cons_of_mem _ hcx))
          hdrop
          (fun hmem => hnd (List.drop_subset _ _ hmem))
        rw [List.map_cons] at ihx
        rw [ihx]
        have hfinal : acc ++ (b :: bs) ++ (payload.drop (b :: bs).length ++ [delim])
            = acc ++ (payload ++ [delim]) := by
          conv_rhs => rw [← List.take_append_drop (b :: bs).length payload]
          rw [← htake]
          simp [List.append_assoc]
        rw [hfinal]

/-- Claim C3 counterexample: the claim states the frame round trip returns
the original payload with the delimiter stripped.  For the empty payload,
`writeFrame []` puts `[delim]` on the stream, and reading it back in one
chunk yields `[delim]` — the delimiter is NOT stripped — not `[]` as the
claim requires. -/
theorem c3_roundtrip_counterexample :
    readFrame [ReadStep.chunk (writeFrame [])] = ReadOutcome.ok [delim] ∧
    readFrame [ReadStep.chunk (writeFrame [])] ≠ ReadOutcome.ok [] := by
  constructor
  · rfl
  · decide

/-- Claim C3 (amended): for every payload not containing the delimiter,
including the empty payload, writing the payload as one frame and reading
one frame back over a loopback stream — the written bytes delivered as any
sequence of nonempty chunks — returns the original payload WITH the
delimiter still appended (the loop at handler.go lines 82–98 never strips
it). -/
theorem c3_frame_roundtrip (payload : List Byte) (chunks : List (List Byte))
    (hne : ∀ c ∈ chunks, c ≠ [])
    (hjoin : chunks.flatten = writeFrame payload)
    (hnd : delim ∉ payload) :
    readFrame (chunks.map ReadStep.chunk) = ReadOutcome.ok (writeFrame payload) := by
  have h := readFrameLoop_assembles chunks payload [] hne hjoin hnd
  simpa [readFrame, writeFrame] using h

/-- Witness for C3's amended theorem at a concrete payload and chunking. -/
theorem c3_frame_roundtrip_witness :
    readFrame ([[104], [105, delim]].map ReadStep.chunk)
      = ReadOutcome.ok (writeFrame [104, 105]) :=
  c3_frame_roundtrip [104, 105] [[104], [105, delim]]
    (by decide) (by decide) (by decide)

/-- Claim C4 (code bug): a zero-length read with a nil error is NOT
transient.  The loop body sleeps (handler.go line 92) but has no
`continue`, so it falls through to `buf[nRead-1]` at line 95 with
`nRead = 0`, a runtime index-out-of-range panic: a frame delivered with a
zero-byte read interspersed makes the loop panic instead of retrying. -/
theorem c4_zero_read_panics :
    readFrame [ReadStep.chunk [104], ReadStep.chunk [], ReadStep.chunk [delim]]
      = ReadOutcome.indexPanic := rfl

/-- Claim C1 counterexample: the claim states that the slot is released on
every exit path including a fault raised inside the callback.  On the panic
exit path the callback runs (the slot was acquired) but the release at
handler.go line 47 never executes, because there is no `defer`: the release
count is 0, not 1. -/
theorem c1_release_counterexample :
    (ExecuteLocked SelectChoice.lockBranch
        (CbBehavior.panics "revm service stdout corrupted, cannot recover")).cbRan
      = true ∧
    (ExecuteLocked SelectChoice.lockBranch
        (CbBehavior.panics "revm service stdout corrupted, cannot recover")).releases
      = 0 := by
  constructor <;> rfl

/-- Claim C1 (amended): whenever the slot is acquired and the callback
returns normally — including when the caller's context is cancelled after
acquisition, which the lock arm never consults — the slot is released
exactly once, and it is never released more than once nor without having
been acquired; but when the callback panics, the panic propagates and the
slot is never released. -/
theorem c1_release_amended (choice : SelectChoice) (cb : CbBehavior) (e : String) :
    (ExecuteLocked SelectChoice.lockBranch CbBehavior.returns).releases = 1 ∧
    (ExecuteLocked SelectChoice.lockBranch (CbBehavior.panics e)).releases = 0 ∧
    (ExecuteLocked SelectChoice.ctxDoneBranch cb).releases = 0 ∧
    (ExecuteLocked choice cb).releases ≤ 1 ∧
    (ExecuteLocked choice cb).releases ≤ (ExecuteLocked choice cb).acquires := by
  cases choice <;> cases cb <;> simp [ExecuteLocked]

/-- Claim C2 (code bug): when the caller's deadline elapses while waiting
for the slot (the ctx-done arm fires), no stream I/O is attempted — the
result is the same whatever `ExecuteTx` would have produced, since the
callback never runs — but the gateway does NOT return a JSON-RPC error
envelope: `handleAPI` discards `ExecuteLocked`'s error (handler.go line
211) and then blocks forever on `<-errCh` (line 223), a channel only the
never-run callback could fill, writing nothing. -/
theorem c2_timeout_blocks_no_envelope (v : String) (idv : RpcId)
    (txRes : ExecTxResult) :
    handleAPI (Except.ok ⟨v, "suave_offchainCall", idv⟩) (Except.ok ())
        SelectChoice.ctxDoneBranch txRes
      = HandlerOutcome.blocked [] := rfl

/-- Claim C5 counterexample: the claim states every stream error during a
Run, the input-frame write included, escalates to a panic and is never
returned as an ordinary error.  A failing `inPipe.Write` (handler.go lines
77–80) is returned as an ordinary error value, which `handleAPI` then turns
into a JSON-RPC error envelope on the request path (lines 223–227). -/
theorem c5_write_error_counterexample :
    ExecuteTx pipesFreshCmd (Except.ok []) (some "broken pipe") [] []
      = ExecTxResult.err "broken pipe" ∧
    ExecuteTx pipesFreshCmd (Except.ok []) (some "broken pipe") [] []
      ≠ ExecTxResult.panicked "broken pipe" ∧
    handleAPI (Except.ok ⟨"2.0", "suave_offchainCall", RpcId.num 1⟩)
        (Except.ok ()) SelectChoice.lockBranch (ExecTxResult.err "broken pipe")
      = HandlerOutcome.returned [HttpWrite.envelope (Envelope.error
          ⟨"2.0", ⟨-32600, "could not execute: broken pipe"⟩, RpcId.num 1⟩)] := by
  refine ⟨rfl, ?_, rfl⟩
  decide

/-- Claim C5 (amended): on a run that reaches the engine streams, a read
error on the primary or on the diagnostic stream panics (handler.go lines
86–90 and 103–106) — escalating to process termination, never an ordinary
error — whereas an error of the input-frame write is returned as an
ordinary per-call error value (lines 78–80). -/
theorem c5_fault_split (m : List Byte) (os es : List ReadStep) (e : String)
    (outData : List Byte) :
    (ExecuteTx pipesFreshCmd (Except.ok m) (some e) os es = ExecTxResult.err e) ∧
    (readFrame os = ReadOutcome.panicked e →
      ExecuteTx pipesFreshCmd (Except.ok m) none os es = ExecTxResult.panicked e) ∧
    (readFrame os = ReadOutcome.ok outData →
      readFrame es = ReadOutcome.panicked e →
      ExecuteTx pipesFreshCmd (Except.ok m) none os es = ExecTxResult.panicked e) := by
  refine ⟨rfl, ?_, ?_⟩
  · intro hos
    simp [ExecuteTx, stdinPipe, stdoutPipe, stderrPipe, pipesFreshCmd, hos]
  · intro hos hes
    simp [ExecuteTx, stdinPipe, stdoutPipe, stderrPipe, pipesFreshCmd, hos, hes]

/-- Witness for C5's amended theorem at concrete scripts. -/
theorem c5_fault_split_witness :
    ExecuteTx pipesFreshCmd (Except.ok []) (some "epipe")
        [ReadStep.fail "boom"] [] = ExecTxResult.err "epipe" ∧
    ExecuteTx pipesFreshCmd (Except.ok []) none
        [ReadStep.fail "boom"] [] = ExecTxResult.panicked "boom" ∧
    ExecuteTx pipesFreshCmd (Except.ok []) none
        [ReadStep.chunk [delim]] [ReadStep.fail "boom"]
      = ExecTxResult.panicked "boom" :=
  ⟨(c5_fault_split [] [ReadStep.fail "boom"] [] "epipe" []).1,
   (c5_fault_split [] [ReadStep.fail "boom"] [] "boom" []).2.1 (by decide),
   (c5_fault_split [] [ReadStep.chunk [delim]] [ReadStep.fail "boom"] "boom"
      [delim]).2.2 (by decide) (by decide)⟩

/-- Claim C6 (code bug): after `NewRevmService` a pipe can never be
obtained.  `NewRevmService` assigns `bytes.Buffer`s to `cmd.Stdout` and
`cmd.Stderr` and starts the process before any pipe is requested, and
`ExecuteTx` requests the pipes per call afterwards; by the os/exec
contract `StdinPipe` then always fails, so every `ExecuteTx` call returns
an ordinary error at its first step, whatever the transaction or the
engine would have done. -/
theorem c6_pipes_never_obtained (marshalRes : Except String (List Byte))
    (writeRes : Option String) (outScript errScript : List ReadStep) :
    ExecuteTx NewRevmServiceCmd marshalRes writeRes outScript errScript
      = ExecTxResult.err "exec: StdinPipe after process started" := rfl

/-- Claim C7 (code bug): a request with an unsupported method does get the
`-32600` error envelope with the invalid-method text and the echoed
`jsonrpc` and `id`, and the error object's code is serialized under the key
"code" — but the message is serialized under the key "Message", not
"message": the struct tag on the `Message` field (handler.go line 129) is
the malformed `json:message""`, which `reflect.StructTag.Lookup` rejects,
so `encoding/json` falls back to the Go field name. -/
theorem c7_message_key_capitalized :
    handleAPI (Except.ok ⟨"2.0", "foo", RpcId.num 1⟩) (Except.ok ())
        SelectChoice.lockBranch (ExecTxResult.ok [] [])
      = HandlerOutcome.returned [HttpWrite.envelope (Envelope.error
          ⟨"2.0", ⟨-32600, "invalid method, expected suave_offchainCall"⟩,
           RpcId.num 1⟩)] ∧
    encodeJsonRpcErrorResponse
        ⟨"2.0", ⟨-32600, "invalid method, expected suave_offchainCall"⟩,
         RpcId.num 1⟩
      = JsonValue.obj
          [("jsonrpc", JsonValue.str "2.0"),
           ("error", JsonValue.obj
              [("code", JsonValue.int (-32600)),
               ("Message",
                JsonValue.str "invalid method, expected suave_offchainCall")]),
           ("id", JsonValue.int 1)] ∧
    jsonKey "Message" "json:message\"\"" ≠ "message" := by
  refine ⟨rfl, rfl, ?_⟩
  decide

/-- Claim C8 (code bug): on a request that decodes and executes without
fault, the handler does write a success envelope whose `result` is exactly
the primary (stdout) frame — the diagnostic (stderr) frame appears in no
write — but it then neither logs the diagnostic output nor terminates: the
second `<-errCh` at handler.go line 231 receives on a 1-buffered channel
whose only value was already consumed at line 223 and which has no live
sender, so the handler blocks forever. -/
theorem c8_success_envelope_then_blocks (v : String) (idv : RpcId)
    (stdout stderr : List Byte) :
    handleAPI (Except.ok ⟨v, "suave_offchainCall", idv⟩) (Except.ok ())
        SelectChoice.lockBranch (ExecTxResult.ok stdout stderr)
      = HandlerOutcome.blocked
          [HttpWrite.envelope (Envelope.success ⟨v, stdout, idv⟩)] := rfl

/-- Claim C9: mutual exclusion of engine access.  In every state reachable
by concurrent request tasks contending for the single-slot channel, at most
one task is inside the write-then-read-twice I/O region, so one call's full
sequence on the engine pipes completes before another's begins and frames
are never interleaved. -/
theorem c9_mutual_exclusion {n : Nat} {s : GateSys n}
    (hreach : GateReachable s) (i j : Fin n)
    (hi : (s.pcs i).inCrit = true) (hj : (s.pcs j).inCrit = true) : i = j :=
  (mutexInv_reachable hreach).1 i j hi hj

/-- Witness for C9 at a concrete reachable state with one task holding the
slot. -/
theorem c9_mutual_exclusion_witness :
    GateReachable (⟨true, Function.update (gateInit 1).pcs 0 Pc.writing⟩ : GateSys 1) ∧
    (0 : Fin 1) = 0 := by
  have hstep : GateStep (gateInit 1)
      (⟨true, Function.update (gateInit 1).pcs 0 Pc.writing⟩ : GateSys 1) :=
    GateStep.acquire (gateInit 1) 0 rfl rfl
  have hreach : GateReachable
      (⟨true, Function.update (gateInit 1).pcs 0 Pc.writing⟩ : GateSys 1) :=
    Relation.ReflTransGen.single hstep
  refine ⟨hreach, c9_mutual_exclusion hreach 0 0 ?_ ?_⟩ <;>
    simp [gateInit, Pc.inCrit]

/-- Claim C10: the `jsonrpc` version field of a parsed request is never
validated — the handler's behaviour on a request is, write for write, the
behaviour on the same request with any other version string (including the
empty string, which a missing field decodes to), with only the echoed field
substituted — and every envelope the handler writes echoes the request's
`jsonrpc` and `id` fields verbatim. -/
theorem c10_version_unvalidated_echoed (jr : JsonRpcRequest) (v : String)
    (txDecode : Except String Unit) (choice : SelectChoice)
    (txRes : ExecTxResult) :
    (∀ env ∈ envelopesOf (handleAPI (Except.ok jr) txDecode choice txRes),
        envVersion env = jr.jsonrpc ∧ envId env = jr.id) ∧
    handleAPI (Except.ok { jr with jsonrpc := v }) txDecode choice txRes
      = mapVersion v (handleAPI (Except.ok jr) txDecode choice txRes) := by
  by_cases hm : jr.method = "suave_offchainCall" <;>
    cases txDecode <;> cases choice <;> cases txRes <;>
      simp [handleAPI, runCallback, envelopesOf, writesOf, envVersion, envId,
            mapVersion, mapWriteVersion, setEnvVersion, NewJsonRpcErrorResponse,
            NewJsonRpcSuccessResponse, hm]

/-- Witness for C10 at a concrete request and envelope. -/
theorem c10_version_witness :
    envVersion (Envelope.error
        ⟨"2.0", ⟨-32600, "invalid method, expected suave_offchainCall"⟩,
         RpcId.null⟩) = "2.0" ∧
    envId (Envelope.error
        ⟨"2.0", ⟨-32600, "invalid method, expected suave_offchainCall"⟩,
         RpcId.null⟩) = RpcId.null :=
  (c10_version_unvalidated_echoed ⟨"2.0", "foo", RpcId.null⟩ "1.0"
      (Except.ok ()) SelectChoice.lockBranch (ExecTxResult.ok [] [])).1
    (Envelope.error
      ⟨"2.0", ⟨-32600, "invalid method, expected suave_offchainCall"⟩,
       RpcId.null⟩)
    (by decide)

end GramineRevm
